import Mathlib

/-!
Shallow embedding of the ArcGIS REST explorer's catalog discovery and caching
client (`ArcGISServiceClient` in `src/unnamed/part_003`) and of the result
cache (`CacheService` in `src/src/services/cacheService.ts`).

Modelling conventions:
* Network traffic is an oracle (`Env`): every remote URL is mapped to the
  outcome its fetch would produce during the run under scrutiny.  Requests
  that carry the walk's abort signal (only `fetchRaw`, i.e. catalog-listing
  requests, carry `signal:` in the source) may resolve as `cancelled`; the
  detail/probe/query requests carry no signal and cannot.
* The event-loop interleaving of the source's `Promise.allSettled` fan-outs is
  linearised: each dispatched task's async body catches its only fallible
  await internally, so every task fulfils; the collected output is exactly one
  record per task in dispatch order, which the sequential embedding mirrors.
* Wall-clock time is explicit: a whole call happens at the instant `now`,
  so elapsed-time measurements (`Date.now() - startTime`) embed as `0`.
* JavaScript truthiness (`||` defaulting, `if (x)`) is embedded explicitly
  where the source relies on it.
* Machine numbers are `Nat`/`Int`; ids and HTTP statuses are `Nat`.
-/

/-- JSON value, used where the source inspects an untyped response body
(`checkServiceStatus`) or stores one (query results). -/
inductive JVal : Type
  | null
  | bool (b : Bool)
  | num (n : Int)
  | str (s : String)
  | arr (elems : List JVal)
  | obj (fields : List (String × JVal))
deriving Repr

/-- JavaScript truthiness of a JSON value (`!!v`). -/
def JVal.truthy : JVal → Bool
  | .null => false
  | .bool b => b
  | .num n => n != 0
  | .str s => s != ""
  | .arr _ => true
  | .obj _ => true

/-- `Object.keys(v).length` on a JSON value (strings and arrays expose their
indices as keys; numbers and booleans have no own keys). -/
def JVal.keyCount : JVal → Nat
  | .null => 0
  | .bool _ => 0
  | .num _ => 0
  | .str s => s.length
  | .arr elems => elems.length
  | .obj fields => fields.length

/-- Property access `v.name` (`none` = `undefined`). -/
def JVal.getField : JVal → String → Option JVal
  | .obj fields, name => (fields.find? (fun kv => kv.1 == name)).map (fun kv => kv.2)
  | _, _ => none

/-- Numeric projection: `some n` iff the value is a number (used for the
strict comparisons `errorCode === 499` etc.). -/
def JVal.asNum : JVal → Option Int
  | .num n => some n
  | _ => none

/-- String projection. -/
def JVal.asStr : JVal → Option String
  | .str s => some s
  | _ => none

/-- JavaScript `a || b` for optional strings (empty string is falsy). -/
def jsOrString (a b : Option String) : Option String :=
  match a with
  | some s => if s == "" then b else some s
  | none => b

/-- JavaScript `a || d` for an optional string with a mandatory default. -/
def jsStringOrDefault (a : Option String) (d : String) : String :=
  match a with
  | some s => if s == "" then d else s
  | none => d

/-! ### Data model (`src/src/types/arcgis.types.ts`) -/

/-- One `{name, type}` entry of a catalog listing. -/
structure ArcGISServiceInfo where
  name : String
  type : String
deriving Repr, DecidableEq

/-- Layer descriptor as it appears inside a service descriptor. -/
structure ArcGISLayer where
  id : Nat
  name : String
  geometryType : Option String := none
deriving Repr, DecidableEq

/-- Table descriptor as it appears inside a service descriptor. -/
structure ArcGISTable where
  id : Nat
  name : String
deriving Repr, DecidableEq

/-- Catalog-listing response body; both fields are duck-typed optional in the
source (`catalogData.services && ...`, `catalogResponse.folders && ...`). -/
structure ArcGISCatalogResponse where
  services : Option (List ArcGISServiceInfo) := none
  folders : Option (List String) := none
deriving Repr, DecidableEq

/-- One attribute field of a layer/table (optional attributes such as the
display alias are not consulted by the client and are elided). -/
structure ArcGISField where
  name : String
  type : String
deriving Repr, DecidableEq

/-- `editFieldsInfo` block of a layer descriptor. -/
structure EditFieldsInfo where
  creationDateField : Option String := none
  creatorField : Option String := none
  editDateField : Option String := none
  editorField : Option String := none
deriving Repr, DecidableEq

/-- Raw service descriptor returned by `getServiceDetails`' network fetch.
`responseTime` is attached by the client after the fetch. -/
structure ServiceDetailsData where
  layers : Option (List ArcGISLayer) := none
  tables : Option (List ArcGISTable) := none
  description : Option String := none
  serviceDescription : Option String := none
  capabilities : Option String := none
  responseTime : Option Nat := none
deriving Repr, DecidableEq

/-- Service record emitted by the discovery walk (`ArcGISService`). -/
structure ArcGISService where
  name : String
  type : String
  url : String
  folder : Option String := none
  layerCount : Option Nat := none
  tableCount : Option Nat := none
  requiresAuth : Bool
  isEmpty : Bool
  error : Option String := none
  description : Option String := none
  capabilities : Option String := none
  layers : Option (List ArcGISLayer) := none
  tables : Option (List ArcGISTable) := none
deriving Repr, DecidableEq

/-- Verdict of the status prober (`ServiceStatus`). -/
structure ServiceStatus where
  accessible : Bool
  requiresAuth : Bool
  isEmpty : Bool
  redirected : Bool
  error : Option String := none
  responseTime : Option Nat := none
deriving Repr, DecidableEq

/-- Layer/table descriptor returned by `getLayerDetails`.  `timeInfo` is kept
as a raw JSON value because the source only tests its truthiness. -/
structure ArcGISLayerDetails where
  geometryType : Option String := none
  fields : Option (List ArcGISField) := none
  description : Option String := none
  editFieldsInfo : Option EditFieldsInfo := none
  timeInfo : Option JVal := none
deriving Repr

/-- Resource record emitted by the resource-mode walk (`ArcGISResource`). -/
structure ArcGISResource where
  id : Nat
  name : String
  type : String
  serviceName : String
  serviceType : String
  serviceUrl : String
  resourceUrl : String
  folder : Option String := none
  geometryType : Option String := none
  fieldCount : Option Nat := none
  fields : Option (List ArcGISField) := none
  description : Option String := none
  editFieldsInfo : Option EditFieldsInfo := none
  hasTimestamp : Option Bool := none
  requiresAuth : Bool
  error : Option String := none
deriving Repr, DecidableEq

/-! ### Result cache (`CacheService`, src/src/services/cacheService.ts)

The backing store (localforage) is an ordered association list keyed by
string; storage-layer exceptions (caught and turned into no-ops/`null` by the
source) are not modelled. -/

/-- `CacheEntry<T>`: payload, recorded-at timestamp, time-to-live (ms). -/
structure CacheEntry (α : Type) where
  data : α
  timestamp : Nat
  ttl : Nat
deriving Repr, DecidableEq

/-- First entry stored under `key`, if any (`store.getItem(key)`). -/
def storeLookup (store : List (String × CacheEntry α)) (key : String) :
    Option (CacheEntry α) :=
  (store.find? (fun kv => kv.1 == key)).map (fun kv => kv.2)

/-- `CacheService.delete`: remove the entry stored under `key`. -/
def CacheService.delete (store : List (String × CacheEntry α)) (key : String) :
    List (String × CacheEntry α) :=
  store.filter (fun kv => !(kv.1 == key))

/-- `CacheService.get`: return the entry's data unless missing or expired;
an expired entry is deleted from the backing store (lazy eviction) and
treated as absent.  Returns the possibly-updated store alongside. -/
def CacheService.get (store : List (String × CacheEntry α)) (now : Nat)
    (key : String) : Option α × List (String × CacheEntry α) :=
  match storeLookup store key with
  | none => (none, store)
  | some entry =>
    if now - entry.timestamp > entry.ttl then
      (none, CacheService.delete store key)
    else
      (some entry.data, store)

/-- `CacheService.set`: record `data` under `key` with the given ttl,
overwriting any previous entry. -/
def CacheService.set (store : List (String × CacheEntry α)) (now : Nat)
    (key : String) (data : α) (ttl : Nat) : List (String × CacheEntry α) :=
  (key, ⟨data, now, ttl⟩) :: CacheService.delete store key

/-- `CacheService.TTL.SHORT` = 5 minutes (ms). -/
def CacheService.TTL.SHORT : Nat := 5 * 60 * 1000

/-- `CacheService.TTL.MEDIUM` = 30 minutes (ms). -/
def CacheService.TTL.MEDIUM : Nat := 30 * 60 * 1000

/-- `CacheService.TTL.LONG` = 24 hours (ms). -/
def CacheService.TTL.LONG : Nat := 24 * 60 * 60 * 1000

/-- `CacheService.KEYS.SERVICE_CATALOG`. -/
def CacheService.KEYS.SERVICE_CATALOG (baseUrl : String) : String :=
  "catalog:" ++ baseUrl

/-- `CacheService.KEYS.SERVICE_DETAILS`. -/
def CacheService.KEYS.SERVICE_DETAILS (serviceUrl : String) : String :=
  "service:" ++ serviceUrl

/-- `CacheService.KEYS.LAYER_DETAILS`. -/
def CacheService.KEYS.LAYER_DETAILS (serviceUrl : String) (layerId : Nat) : String :=
  "layer:" ++ serviceUrl ++ ":" ++ toString layerId

/-- `CacheService.KEYS.QUERY_RESULT`. -/
def CacheService.KEYS.QUERY_RESULT (serviceUrl : String) (layerId : Nat)
    (query : String) : String :=
  "query:" ++ serviceUrl ++ ":" ++ toString layerId ++ ":" ++ query

/-! ### Network environment and run context

The client is embedded as pure functions over an `Env` (the outcome every
remote URL would produce during the run) and a `Ctx` threading the cache
store, the ordered log of network requests issued, and the ordered log of
progress-callback invocations. -/

/-- Cached value: the sum of the payload types the client stores.  The
source's `get<T>` performs an unchecked cast, sound in practice because the
key namespaces (`catalog:`/`service:`/`layer:`/`query:`) discriminate the
payload type; the `as...` projections below render that cast. -/
inductive CVal : Type
  | services (value : List ArcGISService)
  | details (value : ServiceDetailsData)
  | layer (value : ArcGISLayerDetails)
  | query (value : JVal)
  | resources (value : List ArcGISResource)
deriving Repr

/-- Rendering of the source's `get<ArcGISService[]>` cast. -/
def CVal.asServices : CVal → List ArcGISService
  | .services v => v
  | _ => []

/-- Rendering of the source's `get<any>` cast in `getServiceDetails`. -/
def CVal.asDetails : CVal → ServiceDetailsData
  | .details v => v
  | _ => {}

/-- Rendering of the source's `get<ArcGISLayerDetails>` cast. -/
def CVal.asLayer : CVal → ArcGISLayerDetails
  | .layer v => v
  | _ => {}

/-- Rendering of the source's `get<ArcGISQueryResponse>` cast. -/
def CVal.asQuery : CVal → JVal
  | .query v => v
  | _ => .null

/-- Rendering of the source's `get<ArcGISResource[]>` cast. -/
def CVal.asResources : CVal → List ArcGISResource
  | .resources v => v
  | _ => []

/-- JavaScript truthiness of a cached value, as tested by `if (cached)`:
arrays and objects are always truthy, a cached raw JSON query payload is
truthy iff the JSON value is. -/
def CVal.jsTruthy : CVal → Bool
  | .query v => v.truthy
  | _ => true

/-- Outcome of a catalog-listing request (`fetchRaw`).  Only these requests
carry the walk's abort signal (`signal: this.abortController?.signal`), so
only they can observe a cancellation: `cancelled` models a request whose
signal was aborted by `cancelDiscovery` (or a new walk) while in flight. -/
inductive FetchOutcome (α : Type) : Type
  | ok (data : α)
  | cancelled
  | failure (msg : String)
deriving Repr

/-- Outcome of the status prober's raw request: an HTTP response (any status;
`validateStatus` filtering happens in `checkServiceStatus`) or a transport
failure with no response (DNS/timeout/connection refused). -/
inductive ProbeOutcome : Type
  | response (status : Nat) (data : JVal)
  | netError (msg : String)
deriving Repr

/-- A thrown JavaScript error, distinguishing axios cancellation errors
(`axios.isCancel(error)` true) from all others. -/
inductive JsError : Type
  | cancelled
  | error (msg : String)
deriving Repr, DecidableEq

/-- Network oracle: what each remote read returns during the run.  Detail and
query requests carry no abort signal in the source, hence cannot resolve as
cancelled. -/
structure Env where
  catalog : String → FetchOutcome ArcGISCatalogResponse
  serviceDetails : String → Except String ServiceDetailsData
  layerDetails : String → Except String ArcGISLayerDetails
  probe : String → ProbeOutcome
  query : String → Except String JVal

/-- One invocation of the progress callback `(current, total, message)`. -/
structure ProgressCall where
  current : Nat
  total : Nat
  message : String
deriving Repr, DecidableEq

/-- Run context: cache store, chronological network-request log (URLs),
chronological progress-callback log. -/
structure Ctx where
  store : List (String × CacheEntry CVal) := []
  reqs : List String := []
  prog : List ProgressCall := []

/-- Record a network request. -/
def logReq (ctx : Ctx) (url : String) : Ctx :=
  { ctx with reqs := ctx.reqs ++ [url] }

/-- Record a progress-callback invocation (`onProgress?.(...)`; an absent
callback simply ignores the call, so the log captures every invocation). -/
def logProgress (ctx : Ctx) (current total : Nat) (message : String) : Ctx :=
  { ctx with prog := ctx.prog ++ [⟨current, total, message⟩] }

/-! ### ArcGISServiceClient (src/unnamed/part_003) -/

/-- `buildServiceUrl` (lines 409-415). -/
def buildServiceUrl (baseUrl serviceName serviceType : String) : String :=
  baseUrl ++ "/" ++ serviceName ++ "/" ++ serviceType

/-- `fetchRaw` (lines 189-200): GET the catalog listing of `baseUrl/folder`
(or of the root when `folder` is empty), with the walk's abort signal. -/
def fetchRaw (env : Env) (ctx : Ctx) (baseUrl folder : String) :
    Ctx × Except JsError ArcGISCatalogResponse :=
  let url := if folder == "" then baseUrl else baseUrl ++ "/" ++ folder
  let ctx := logReq ctx url
  match env.catalog url with
  | .ok data => (ctx, .ok data)
  | .cancelled => (ctx, .error .cancelled)
  | .failure msg => (ctx, .error (.error msg))

/-- Success-path classification of `checkServiceStatus` (lines 249-280):
the response was accepted by `validateStatus: (status) => status < 500`. -/
def checkStatusOnResponse (data : JVal) : ServiceStatus :=
  if !data.truthy || data.keyCount == 0 then
    { accessible := false, requiresAuth := false, isEmpty := true,
      redirected := false, error := some "Empty response", responseTime := some 0 }
  else if ((data.getField "error").map JVal.truthy).getD false then
    let errVal := (data.getField "error").getD .null
    let errorCode := (errVal.getField "code").bind JVal.asNum
    { accessible := false,
      requiresAuth := errorCode == some 499 || errorCode == some 498,
      isEmpty := false, redirected := false,
      error := some (jsStringOrDefault ((errVal.getField "message").bind JVal.asStr)
        "Service error"),
      responseTime := some 0 }
  else
    { accessible := true, requiresAuth := false, isEmpty := false,
      redirected := false, responseTime := some 0 }

/-- Catch-path classification of `checkServiceStatus` (lines 281-317):
the request rejected, with `responseStatus` the HTTP status of the attached
response if one exists.  Note that with `validateStatus: status < 500` a
request only rejects for a transport failure or a status of 500 and above,
so the 401/403 and 301/302 arms below are unreachable in this configuration;
they are embedded faithfully nonetheless. -/
def checkStatusOnCaught (responseStatus : Option Nat) (message : String) :
    ServiceStatus :=
  if responseStatus == some 401 || responseStatus == some 403 then
    { accessible := false, requiresAuth := true, isEmpty := false,
      redirected := false, error := some "Authentication required",
      responseTime := some 0 }
  else if responseStatus == some 302 || responseStatus == some 301 then
    { accessible := false, requiresAuth := true, isEmpty := false,
      redirected := true, error := some "Redirected to login",
      responseTime := some 0 }
  else
    { accessible := false, requiresAuth := false, isEmpty := false,
      redirected := false,
      error := some (if message == "" then "Unknown error" else message),
      responseTime := some 0 }

/-- `checkServiceStatus` (lines 236-318), the status prober: GET with
redirects disabled and `validateStatus: (status) => status < 500`, never
throws.  Elapsed time embeds as 0 (single-instant run). -/
def checkServiceStatus (env : Env) (ctx : Ctx) (url : String) :
    Ctx × ServiceStatus :=
  let ctx := logReq ctx url
  match env.probe url with
  | .response status data =>
    if status < 500 then
      (ctx, checkStatusOnResponse data)
    else
      (ctx, checkStatusOnCaught (some status)
        ("Request failed with status code " ++ toString status))
  | .netError msg => (ctx, checkStatusOnCaught none msg)

/-- Network-and-cache-write part of `getServiceDetails` (lines 215-230). -/
def getServiceDetailsFetch (env : Env) (ctx : Ctx) (now : Nat)
    (serviceUrl : String) (useCache : Bool) :
    Ctx × Except JsError ServiceDetailsData :=
  let ctx := logReq ctx serviceUrl
  match env.serviceDetails serviceUrl with
  | .error msg => (ctx, .error (.error msg))
  | .ok data0 =>
    let data := { data0 with responseTime := some 0 }
    if useCache then
      let cacheKey := CacheService.KEYS.SERVICE_DETAILS serviceUrl
      let store := CacheService.set ctx.store now cacheKey (CVal.details data)
        CacheService.TTL.LONG
      ({ ctx with store := store }, .ok data)
    else
      (ctx, .ok data)

/-- `getServiceDetails` (lines 205-231): cache-through fetch of a service
descriptor; throws (returns `.error`) when the network fetch fails. -/
def getServiceDetails (env : Env) (ctx : Ctx) (now : Nat) (serviceUrl : String)
    (useCache : Bool) : Ctx × Except JsError ServiceDetailsData :=
  if useCache then
    let cacheKey := CacheService.KEYS.SERVICE_DETAILS serviceUrl
    let (cached, store) := CacheService.get ctx.store now cacheKey
    let ctx := { ctx with store := store }
    match cached.filter CVal.jsTruthy with
    | some v => (ctx, .ok v.asDetails)
    | none => getServiceDetailsFetch env ctx now serviceUrl useCache
  else
    getServiceDetailsFetch env ctx now serviceUrl useCache

/-- Per-service body of the fan-out in `fetchCatalogLevel` (lines 118-146):
build the service URL, attempt the detail fetch, and on failure fall back to
the status prober's verdict.  Always yields a record. -/
def resolveService (env : Env) (ctx : Ctx) (now : Nat) (baseUrl folder : String)
    (serviceInfo : ArcGISServiceInfo) : Ctx × ArcGISService :=
  let serviceUrl := buildServiceUrl baseUrl serviceInfo.name serviceInfo.type
  let service : ArcGISService :=
    { name := serviceInfo.name, type := serviceInfo.type, url := serviceUrl,
      folder := some (if folder == "" then "root" else folder),
      requiresAuth := false, isEmpty := false }
  match getServiceDetails env ctx now serviceUrl true with
  | (ctx1, .ok details) =>
    (ctx1,
      { service with
        layerCount := some (details.layers.getD []).length,
        tableCount := some (details.tables.getD []).length,
        description := jsOrString details.description details.serviceDescription,
        capabilities := details.capabilities,
        layers := details.layers,
        tables := details.tables })
  | (ctx1, .error _) =>
    let (ctx2, status) := checkServiceStatus env ctx1 serviceUrl
    (ctx2,
      { service with
        requiresAuth := status.requiresAuth,
        isEmpty := status.isEmpty,
        error := status.error })

/-- The `servicePromises` fan-out plus `Promise.allSettled` collection of
`fetchCatalogLevel` (lines 118-153), linearised: every task's body catches
its only fallible await, so every promise fulfils and exactly one record per
listing entry is pushed, in dispatch order. -/
def resolveServices (env : Env) (now : Nat) (baseUrl folder : String) :
    Ctx → List ArcGISServiceInfo → Ctx × List ArcGISService
  | ctx, [] => (ctx, [])
  | ctx, si :: rest =>
    let (ctx1, svc) := resolveService env ctx now baseUrl folder si
    let (ctx2, svcs) := resolveServices env now baseUrl folder ctx1 rest
    (ctx2, svc :: svcs)

/-- The empty-folder placeholder record (lines 156-163). -/
def emptyFolderRecord (baseUrl folder : String) : ArcGISService :=
  { name := folder, type := "Folder", url := baseUrl ++ "/" ++ folder,
    folder := some folder, requiresAuth := false, isEmpty := true }

/-- The failed-folder placeholder record (lines 170-178). -/
def errorFolderRecord (baseUrl folder : String) (status : ServiceStatus) :
    ArcGISService :=
  { name := folder, type := "Folder", url := baseUrl ++ "/" ++ folder,
    folder := some folder, requiresAuth := status.requiresAuth,
    isEmpty := status.isEmpty, error := status.error }

/-- `fetchCatalogLevel` (lines 106-184): list one folder (or the root when
`folder` is empty) and resolve each listed service.  Never throws: a listing
failure (including an observed cancellation) is caught and, for a non-root
folder, converted into a probed placeholder record.  The `onProgress`
parameter of the source is declared but never invoked, so no progress
entries arise here. -/
def fetchCatalogLevel (env : Env) (ctx : Ctx) (now : Nat)
    (baseUrl folder : String) : Ctx × List ArcGISService :=
  match fetchRaw env ctx baseUrl folder with
  | (ctx1, .ok catalogData) =>
    if (catalogData.services.getD []).length > 0 then
      resolveServices env now baseUrl folder ctx1 (catalogData.services.getD [])
    else if folder != "" then
      (ctx1, [emptyFolderRecord baseUrl folder])
    else
      (ctx1, [])
  | (ctx1, .error _) =>
    if folder != "" then
      let (ctx2, status) := checkServiceStatus env ctx1 (baseUrl ++ "/" ++ folder)
      (ctx2, [errorFolderRecord baseUrl folder status])
    else
      (ctx1, [])

/-- The per-folder fan-out plus `Promise.allSettled` collection of
`getCatalog` (lines 57-71), linearised: `fetchCatalogLevel` never rejects,
so every folder promise fulfils and the rejected arm of the source is
unreachable.  The per-folder progress wrapper passed at lines 58-60 is never
invoked (see `fetchCatalogLevel`). -/
def walkFolders (env : Env) (now : Nat) (baseUrl : String) :
    Ctx → List String → Ctx × List ArcGISService
  | ctx, [] => (ctx, [])
  | ctx, folder :: rest =>
    let (ctx1, svcs) := fetchCatalogLevel env ctx now baseUrl folder
    let (ctx2, more) := walkFolders env now baseUrl ctx1 rest
    (ctx2, svcs ++ more)

/-- Tail of `getCatalog`'s try block (lines 74-80, 90): final progress call,
optional cache write of the merged list, and the successful return. -/
def finishCatalog (ctx : Ctx) (now : Nat) (baseUrl : String) (useCache : Bool)
    (services : List ArcGISService) :
    Ctx × Except JsError (List ArcGISService) :=
  let ctx := logProgress ctx 1 1 "Complete"
  let ctx :=
    if useCache then
      let store := CacheService.set ctx.store now
        (CacheService.KEYS.SERVICE_CATALOG baseUrl) (CVal.services services)
        CacheService.TTL.MEDIUM
      { ctx with store := store }
    else ctx
  (ctx, .ok services)

/-- Body of `getCatalog` after a cache miss (lines 38-90): root level, second
root listing for the folder names, folder fan-out, merge, cache write.  The
only await of the try block that can throw is the `fetchRaw` at line 49; a
cancellation observed there is rethrown as the distinguished
`Discovery cancelled` error (lines 81-88). -/
def getCatalogWalk (env : Env) (ctx : Ctx) (now : Nat) (baseUrl : String)
    (useCache : Bool) : Ctx × Except JsError (List ArcGISService) :=
  let ctx := logProgress ctx 0 1 "Fetching root catalog..."
  match fetchCatalogLevel env ctx now baseUrl "" with
  | (ctx1, rootServices) =>
    match fetchRaw env ctx1 baseUrl "" with
    | (ctx2, .error e) =>
      match e with
      | .cancelled => (ctx2, .error (.error "Discovery cancelled"))
      | .error msg => (ctx2, .error (.error msg))
    | (ctx2, .ok catalogResponse) =>
      let folders := catalogResponse.folders.getD []
      if folders.length > 0 then
        let totalFolders := folders.length + 1
        let ctx3 := logProgress ctx2 1 totalFolders
          ("Processing " ++ toString folders.length ++ " folders...")
        match walkFolders env now baseUrl ctx3 folders with
        | (ctx4, folderServices) =>
          finishCatalog ctx4 now baseUrl useCache (rootServices ++ folderServices)
      else
        finishCatalog ctx2 now baseUrl useCache rootServices

/-- `getCatalog` (lines 23-91): serve from cache when enabled and fresh,
otherwise perform the full walk. -/
def getCatalog (env : Env) (ctx : Ctx) (now : Nat) (baseUrl : String)
    (useCache : Bool) : Ctx × Except JsError (List ArcGISService) :=
  if useCache then
    let cacheKey := CacheService.KEYS.SERVICE_CATALOG baseUrl
    let (cached, store) := CacheService.get ctx.store now cacheKey
    let ctx1 := { ctx with store := store }
    match cached.filter CVal.jsTruthy with
    | some v => (ctx1, .ok v.asServices)
    | none => getCatalogWalk env ctx1 now baseUrl useCache
  else
    getCatalogWalk env ctx now baseUrl useCache

/-- `cancelDiscovery` (lines 96-101) aborts the walk's abort controller; in
this embedding its effect is represented inside `Env`: catalog-listing
requests in flight when (or issued after) the cancellation happens have
outcome `FetchOutcome.cancelled`.  Requests without the signal (service,
layer, probe, query) are unaffected. -/
def cancelDiscovery : Unit := ()

/-- Network-and-cache-write part of `getLayerDetails` (lines 337-351). -/
def getLayerDetailsFetch (env : Env) (ctx : Ctx) (now : Nat)
    (serviceUrl : String) (layerId : Nat) (useCache : Bool) :
    Ctx × Except JsError ArcGISLayerDetails :=
  let url := serviceUrl ++ "/" ++ toString layerId
  let ctx := logReq ctx url
  match env.layerDetails url with
  | .error msg => (ctx, .error (.error msg))
  | .ok data =>
    if useCache then
      let cacheKey := CacheService.KEYS.LAYER_DETAILS serviceUrl layerId
      let store := CacheService.set ctx.store now cacheKey (CVal.layer data)
        CacheService.TTL.LONG
      ({ ctx with store := store }, .ok data)
    else
      (ctx, .ok data)

/-- `getLayerDetails` (lines 323-352): cache-through fetch of a layer/table
descriptor. -/
def getLayerDetails (env : Env) (ctx : Ctx) (now : Nat) (serviceUrl : String)
    (layerId : Nat) (useCache : Bool) : Ctx × Except JsError ArcGISLayerDetails :=
  if useCache then
    let cacheKey := CacheService.KEYS.LAYER_DETAILS serviceUrl layerId
    let (cached, store) := CacheService.get ctx.store now cacheKey
    let ctx := { ctx with store := store }
    match cached.filter CVal.jsTruthy with
    | some v => (ctx, .ok v.asLayer)
    | none => getLayerDetailsFetch env ctx now serviceUrl layerId useCache
  else
    getLayerDetailsFetch env ctx now serviceUrl layerId useCache

/-- `!!(details.editFieldsInfo?.editDateField) || !!(details.timeInfo)`
(lines 503, 544). -/
def hasTimestampOf (details : ArcGISLayerDetails) : Bool :=
  (((details.editFieldsInfo.bind EditFieldsInfo.editDateField).map
    (fun s => s != "")).getD false)
  || ((details.timeInfo.map JVal.truthy).getD false)

/-- Layer resource record when the detail fetch succeeded (lines 489-505). -/
def layerResourceOk (service : ArcGISService) (layer : ArcGISLayer)
    (details : ArcGISLayerDetails) : ArcGISResource :=
  { id := layer.id, name := layer.name, type := "Layer",
    serviceName := service.name, serviceType := service.type,
    serviceUrl := service.url,
    resourceUrl := service.url ++ "/" ++ toString layer.id,
    folder := service.folder,
    geometryType := jsOrString details.geometryType layer.geometryType,
    fieldCount := details.fields.map List.length,
    fields := details.fields,
    description := details.description,
    editFieldsInfo := details.editFieldsInfo,
    hasTimestamp := some (hasTimestampOf details),
    requiresAuth := false }

/-- Layer resource record when the detail fetch failed (lines 508-520). -/
def layerResourceErr (service : ArcGISService) (layer : ArcGISLayer) :
    ArcGISResource :=
  { id := layer.id, name := layer.name, type := "Layer",
    serviceName := service.name, serviceType := service.type,
    serviceUrl := service.url,
    resourceUrl := service.url ++ "/" ++ toString layer.id,
    folder := service.folder,
    geometryType := layer.geometryType,
    requiresAuth := service.requiresAuth,
    error := some "Could not fetch details" }

/-- Table resource record when the detail fetch succeeded (lines 531-546). -/
def tableResourceOk (service : ArcGISService) (table : ArcGISTable)
    (details : ArcGISLayerDetails) : ArcGISResource :=
  { id := table.id, name := table.name, type := "Table",
    serviceName := service.name, serviceType := service.type,
    serviceUrl := service.url,
    resourceUrl := service.url ++ "/" ++ toString table.id,
    folder := service.folder,
    fieldCount := details.fields.map List.length,
    fields := details.fields,
    description := details.description,
    editFieldsInfo := details.editFieldsInfo,
    hasTimestamp := some (hasTimestampOf details),
    requiresAuth := false }

/-- Table resource record when the detail fetch failed (lines 549-560). -/
def tableResourceErr (service : ArcGISService) (table : ArcGISTable) :
    ArcGISResource :=
  { id := table.id, name := table.name, type := "Table",
    serviceName := service.name, serviceType := service.type,
    serviceUrl := service.url,
    resourceUrl := service.url ++ "/" ++ toString table.id,
    folder := service.folder,
    requiresAuth := service.requiresAuth,
    error := some "Could not fetch details" }

/-- The layer loop of a batch task (lines 484-523): one resource record per
layer, minimal on detail-fetch failure. -/
def processLayers (env : Env) (now : Nat) (useCache : Bool)
    (service : ArcGISService) :
    Ctx → List ArcGISLayer → Ctx × List ArcGISResource
  | ctx, [] => (ctx, [])
  | ctx, layer :: rest =>
    let (ctx1, r) := getLayerDetails env ctx now service.url layer.id useCache
    let res :=
      match r with
      | .ok details => layerResourceOk service layer details
      | .error _ => layerResourceErr service layer
    let (ctx2, more) := processLayers env now useCache service ctx1 rest
    (ctx2, res :: more)

/-- The table loop of a batch task (lines 526-563). -/
def processTables (env : Env) (now : Nat) (useCache : Bool)
    (service : ArcGISService) :
    Ctx → List ArcGISTable → Ctx × List ArcGISResource
  | ctx, [] => (ctx, [])
  | ctx, table :: rest =>
    let (ctx1, r) := getLayerDetails env ctx now service.url table.id useCache
    let res :=
      match r with
      | .ok details => tableResourceOk service table details
      | .error _ => tableResourceErr service table
    let (ctx2, more) := processTables env now useCache service ctx1 rest
    (ctx2, res :: more)

/-- One batch task (lines 480-565): all of one service's layers then tables.
Never throws (every detail fetch is individually guarded). -/
def processService (env : Env) (ctx : Ctx) (now : Nat) (useCache : Bool)
    (service : ArcGISService) : Ctx × List ArcGISResource :=
  let (ctx1, layerRes) :=
    processLayers env now useCache service ctx (service.layers.getD [])
  let (ctx2, tableRes) :=
    processTables env now useCache service ctx1 (service.tables.getD [])
  (ctx2, layerRes ++ tableRes)

/-- The per-batch fan-out plus `Promise.allSettled` collection
(lines 480-573), linearised: every batch task fulfils, so all of its
resources are pushed in dispatch order. -/
def processBatchServices (env : Env) (now : Nat) (useCache : Bool) :
    Ctx → List ArcGISService → Ctx × List ArcGISResource
  | ctx, [] => (ctx, [])
  | ctx, s :: rest =>
    let (ctx1, rs) := processService env ctx now useCache s
    let (ctx2, more) := processBatchServices env now useCache ctx1 rest
    (ctx2, rs ++ more)

/-- `const batchSize = 10` (line 476). -/
def batchSize : Nat := 10

/-- One-batch-per-step rendering of the batch loop of `getResourceCatalog`
(lines 477-580): while `i` is below the eligible count, process the slice
`eligible.slice(i, i + batchSize)` and report progress with the cumulative
count `min (i + batchSize) total`, then advance `i` by `batchSize`.  The
`steps` argument is only an upper bound on the number of loop iterations
(so that the recursion is structural); `resourceBatchLoop` supplies
`eligible.length`, which can never be exhausted before the loop condition
`i < eligible.length` fails, because the loop runs at most
`⌈eligible.length / batchSize⌉ ≤ eligible.length` times. -/
def resourceBatchSteps (env : Env) (now : Nat) (useCache : Bool)
    (eligible : List ArcGISService) : Nat → Nat → Ctx → Ctx × List ArcGISResource
  | 0, _, ctx => (ctx, [])
  | steps + 1, i, ctx =>
    if i < eligible.length then
      let batch := (eligible.drop i).take batchSize
      let (ctx1, rs) := processBatchServices env now useCache ctx batch
      let done := min (i + batchSize) eligible.length
      let ctx2 := logProgress ctx1 done eligible.length
        ("Processed " ++ toString done ++ " of " ++ toString eligible.length
          ++ " services...")
      match resourceBatchSteps env now useCache eligible steps
        (i + batchSize) ctx2 with
      | (ctx3, more) => (ctx3, rs ++ more)
    else
      (ctx, [])

/-- The batch loop of `getResourceCatalog` (lines 477-580), entered at
index `i` (the source always enters it at 0). -/
def resourceBatchLoop (env : Env) (now : Nat) (useCache : Bool)
    (eligible : List ArcGISService) (i : Nat) (ctx : Ctx) :
    Ctx × List ArcGISResource :=
  resourceBatchSteps env now useCache eligible eligible.length i ctx

/-- The eligibility filter of `getResourceCatalog` (lines 465-467):
services carrying at least one layer or table. -/
def hasResources (s : ArcGISService) : Bool :=
  (s.layers.getD []).length > 0 || (s.tables.getD []).length > 0

/-- `getResourceCatalog` (lines 441-599): resource-mode walk layered on a
completed service-mode walk.  Note the early return at line 470 when no
service is eligible (it skips the cache write), and that a walk failure is
re-examined for cancellation exactly as in `getCatalog` (lines 589-596). -/
def getResourceCatalog (env : Env) (ctx : Ctx) (now : Nat) (baseUrl : String)
    (useCache : Bool) : Ctx × Except JsError (List ArcGISResource) :=
  let resourcesKey := CacheService.KEYS.SERVICE_CATALOG (baseUrl ++ "_resources")
  let step :=
    if useCache then
      let (cached, store) := CacheService.get ctx.store now resourcesKey
      (cached.filter CVal.jsTruthy, { ctx with store := store })
    else (none, ctx)
  match step with
  | (some v, ctx1) => (ctx1, .ok v.asResources)
  | (none, ctx1) =>
    let ctx2 := logProgress ctx1 0 1 "Fetching services..."
    match getCatalog env ctx2 now baseUrl useCache with
    | (ctx3, .error e) =>
      match e with
      | .cancelled => (ctx3, .error (.error "Discovery cancelled"))
      | .error msg => (ctx3, .error (.error msg))
    | (ctx3, .ok services) =>
      let servicesWithResources := services.filter hasResources
      if servicesWithResources.length == 0 then
        (ctx3, .ok [])
      else
        let ctx4 := logProgress ctx3 0 servicesWithResources.length
          "Fetching resource details..."
        match resourceBatchLoop env now useCache servicesWithResources 0 ctx4 with
        | (ctx5, resources) =>
          let ctx6 := logProgress ctx5 1 1 "Complete"
          let ctx7 :=
            if useCache then
              let store := CacheService.set ctx6.store now resourcesKey
                (CVal.resources resources) CacheService.TTL.MEDIUM
              { ctx6 with store := store }
            else ctx6
          (ctx7, .ok resources)

/-! ### queryLayer (lines 357-404) -/

/-- `QueryOptions` (optional public inputs; `none` = omitted). -/
structure QueryOptions where
  whereClause : Option String := none
  outFields : Option String := none
  returnGeometry : Option Bool := none
  resultRecordCount : Option Int := none
deriving Repr, DecidableEq

/-- The request parameters actually sent by `queryLayer`. -/
structure QueryParams where
  whereClause : String
  outFields : String
  returnGeometry : Bool
  f : String
  resultRecordCount : Int
deriving Repr, DecidableEq

/-- The `params` object of `queryLayer` (lines 365-371): JavaScript `||`
defaulting makes the empty string and 0 fall back to the defaults, and
`returnGeometry` is sent unless explicitly `false`.  (The source's `where`
field is spelled `whereClause` here because `where` is reserved in Lean.) -/
def queryParams (options : QueryOptions) : QueryParams :=
  { whereClause := jsStringOrDefault options.whereClause "1=1",
    outFields := jsStringOrDefault options.outFields "*",
    returnGeometry := options.returnGeometry != some false,
    f := "json",
    resultRecordCount :=
      match options.resultRecordCount with
      | some n => if n == 0 then 1000 else n
      | none => 1000 }

/-- JSON string literal (escaping elided: the strings serialised here are
plain SQL/field-list text). -/
def jsonQuote (s : String) : String := "\"" ++ s ++ "\""

/-- `JSON.stringify(params)` (lines 378, 398): fields in insertion order. -/
def stringifyQueryParams (p : QueryParams) : String :=
  "\x7b\"where\":" ++ jsonQuote p.whereClause
    ++ ",\"outFields\":" ++ jsonQuote p.outFields
    ++ ",\"returnGeometry\":" ++ (if p.returnGeometry then "true" else "false")
    ++ ",\"f\":" ++ jsonQuote p.f
    ++ ",\"resultRecordCount\":" ++ toString p.resultRecordCount ++ "\x7d"

/-- Network-and-cache-write part of `queryLayer` (lines 386-403). -/
def queryLayerFetch (env : Env) (ctx : Ctx) (now : Nat) (url : String)
    (cacheKey : String) (useCache : Bool) : Ctx × Except JsError JVal :=
  let ctx := logReq ctx url
  match env.query url with
  | .error msg => (ctx, .error (.error msg))
  | .ok data =>
    if useCache then
      let store := CacheService.set ctx.store now cacheKey (CVal.query data)
        CacheService.TTL.SHORT
      ({ ctx with store := store }, .ok data)
    else
      (ctx, .ok data)

/-- `queryLayer` (lines 357-404): attribute query against one layer, with
optional short-lived caching keyed by the serialised request parameters. -/
def queryLayer (env : Env) (ctx : Ctx) (now : Nat) (serviceUrl : String)
    (layerId : Nat) (options : QueryOptions) (useCache : Bool) :
    Ctx × Except JsError JVal :=
  let url := serviceUrl ++ "/" ++ toString layerId ++ "/query"
  let params := queryParams options
  let cacheKey := CacheService.KEYS.QUERY_RESULT serviceUrl layerId
    (stringifyQueryParams params)
  if useCache then
    let (cached, store) := CacheService.get ctx.store now cacheKey
    let ctx1 := { ctx with store := store }
    match cached.filter CVal.jsTruthy with
    | some v => (ctx1, .ok v.asQuery)
    | none => queryLayerFetch env ctx1 now url cacheKey useCache
  else
    queryLayerFetch env ctx now url cacheKey useCache

/-! ### Predicates and concrete scenarios used in the claim audits -/

/-- A Service record "carries layer/table data with counts": the detail
fetch succeeded and populated counts/descriptors. -/
def carriesLayerData (s : ArcGISService) : Bool :=
  s.layerCount.isSome || s.tableCount.isSome || s.layers.isSome || s.tables.isSome

/-- How many of the three "resolved" states of a Service hold:
carries layer/table data with counts, isEmpty, error set. -/
def resolvedStateCount (s : ArcGISService) : Nat :=
  (if carriesLayerData s then 1 else 0)
    + (if s.isEmpty then 1 else 0)
    + (if s.error.isSome then 1 else 0)

/-- Boolean test that the `current` components of successive progress calls
are non-decreasing. -/
def currentsNonDecreasing : List ProgressCall → Bool
  | [] => true
  | [_] => true
  | a :: b :: rest => decide (a.current ≤ b.current)
      && currentsNonDecreasing (b :: rest)

/-- The `current` components of successive progress calls are non-decreasing. -/
def progressMonotone (l : List ProgressCall) : Prop :=
  currentsNonDecreasing l = true

instance (l : List ProgressCall) : Decidable (progressMonotone l) :=
  inferInstanceAs (Decidable (currentsNonDecreasing l = true))

/-- Scenario base: every remote operation fails. -/
def envUnreachable : Env :=
  { catalog := fun _ => .failure "Network Error",
    serviceDetails := fun _ => .error "Network Error",
    layerDetails := fun _ => .error "Network Error",
    probe := fun _ => .netError "Network Error",
    query := fun _ => .error "Network Error" }

/-- Scenario: `cancelDiscovery` is invoked after both root-catalog fetches
resolved but while the fan-out fetch of folder `A` is in flight, so that
folder fetch (which carries the abort signal) rejects as cancelled; the
status probe issued by the catch handler carries no signal and proceeds. -/
def envCancelMidFanOut : Env :=
  { envUnreachable with
    catalog := fun u =>
      if u == "http://x" then .ok { services := some [], folders := some ["A"] }
      else .cancelled,
    probe := fun _ => .netError "canceled" }

/-- Scenario: a root catalog with no services and no folders, always up. -/
def envPlainRoot : Env :=
  { envUnreachable with
    catalog := fun u =>
      if u == "http://x" then .ok { services := some [], folders := some [] }
      else .failure "404" }

/-- Scenario: the probed URL answers HTTP 401 with a routine non-empty JSON
body carrying no `error` member. -/
def envAuth401Probe : Env :=
  { envUnreachable with
    probe := fun _ => .response 401 (.obj [("currentVersion", .num 10)]) }

/-- Scenario: the root lists one service whose detail fetch fails, while the
status probe of the same URL answers HTTP 200 with a routine body, so the
prober classifies it accessible. -/
def envDetailUnreachable : Env :=
  { envUnreachable with
    catalog := fun u =>
      if u == "b" then .ok { services := some [⟨"S", "MapServer"⟩] }
      else .failure "404",
    serviceDetails := fun _ => .error "timeout of 10000ms exceeded",
    probe := fun _ => .response 200 (.obj [("currentVersion", .num 11)]) }

/-- Scenario: a root with one service and two folders, folder `A` listing an
empty services array and folder `B` listing one service. -/
def envFolderWalk : Env :=
  { envUnreachable with
    catalog := fun u =>
      if u == "b" then
        .ok { services := some [⟨"R", "MapServer"⟩], folders := some ["A", "B"] }
      else if u == "b/A" then .ok { services := some [] }
      else if u == "b/B" then .ok { services := some [⟨"S", "FeatureServer"⟩] }
      else .failure "404",
    serviceDetails := fun _ => .ok { layers := some [⟨0, "L", none⟩] },
    probe := fun _ => .netError "unreachable" }

/-- Scenario: a healthy root with one single-layer service, for resource-mode
walks. -/
def envResourceWalk : Env :=
  { envUnreachable with
    catalog := fun u =>
      if u == "b" then .ok { services := some [⟨"S", "MapServer"⟩] }
      else .failure "404",
    serviceDetails := fun _ => .ok { layers := some [⟨0, "L", none⟩] },
    layerDetails := fun _ => .ok {} }

/-- A resolved service record carrying one layer, used to build concrete
eligible lists for the batch loop. -/
def svcWithLayer : ArcGISService :=
  { name := "S", type := "MapServer", url := "b/S/MapServer",
    folder := some "root", layerCount := some 1, tableCount := some 0,
    requiresAuth := false, isEmpty := false, layers := some [⟨0, "L", none⟩] }

/-- The progress entries the batch loop appends when entered with `fuel`
remaining steps at index `i` over `total` eligible services (specification
companion of `resourceBatchSteps`). -/
def batchProgressTail (total : Nat) : Nat → Nat → List ProgressCall
  | 0, _ => []
  | fuel + 1, i =>
    if i < total then
      ⟨min (i + batchSize) total, total,
        "Processed " ++ toString (min (i + batchSize) total) ++ " of "
          ++ toString total ++ " services..."⟩
        :: batchProgressTail total fuel (i + batchSize)
    else []

/-- Scenario: a healthy root listing 25 single-layer services (so the
resource-mode walk sees exactly 25 eligible services). -/
def envTwentyFive : Env :=
  { envUnreachable with
    catalog := fun u =>
      if u == "b" then
        .ok { services :=
          some ((List.range 25).map (fun k => ⟨"S" ++ toString k, "MapServer"⟩)) }
      else .failure "404",
    serviceDetails := fun _ => .ok { layers := some [⟨0, "L", none⟩] },
    layerDetails := fun _ => .ok {} }

/-! ## Theorems -/

/-! ### Cache store lemmas -/

theorem storeLookup_set {α : Type} (store : List (String × CacheEntry α))
    (now : Nat) (key : String) (data : α) (ttl : Nat) :
    storeLookup (CacheService.set store now key data ttl) key
      = some ⟨data, now, ttl⟩ := by
  simp [storeLookup, CacheService.set, List.find?]

theorem storeLookup_delete {α : Type} (store : List (String × CacheEntry α))
    (key : String) :
    storeLookup (CacheService.delete store key) key = none := by
  simp only [storeLookup, CacheService.delete, Option.map_eq_none']
  rw [List.find?_eq_none]
  intro kv hkv
  have := List.of_mem_filter hkv
  simpa using this

/-- C4: an entry set at `recorded` with time-to-live `ttl` is still returned
by `get` at `recorded + ttl - 1`, is treated as absent at
`recorded + ttl + 1`, and reading it expired deletes it from the backing
store (lazy eviction). -/
theorem claim_C4_ttl_expiry {α : Type} (store : List (String × CacheEntry α))
    (key : String) (data : α) (recorded ttl : Nat) :
    (CacheService.get (CacheService.set store recorded key data ttl)
        (recorded + ttl - 1) key).1 = some data
    ∧ (CacheService.get (CacheService.set store recorded key data ttl)
        (recorded + ttl + 1) key).1 = none
    ∧ storeLookup (CacheService.get (CacheService.set store recorded key data ttl)
        (recorded + ttl + 1) key).2 key = none := by
  refine ⟨?_, ?_, ?_⟩
  · rw [CacheService.get, storeLookup_set]
    have h : ¬ (recorded + ttl - 1 - recorded > ttl) := by omega
    simp [h]
  · rw [CacheService.get, storeLookup_set]
    have h : recorded + ttl + 1 - recorded > ttl := by omega
    simp [h]
  · rw [CacheService.get, storeLookup_set]
    have h : recorded + ttl + 1 - recorded > ttl := by omega
    simp [h, storeLookup_delete]

/-- C10: at `queryLayer`'s public interface an explicit empty `where`, empty
`outFields`, or zero `resultRecordCount` is indistinguishable from omitting
the option: the request parameters built (and hence the whole call) coincide,
with the defaults `1=1`, `*` and 1000 substituted. -/
theorem claim_C10_falsy_query_defaults (o : QueryOptions) (env : Env)
    (ctx : Ctx) (now : Nat) (serviceUrl : String) (layerId : Nat)
    (useCache : Bool) :
    (queryParams { o with whereClause := some "" }
        = queryParams { o with whereClause := none }
      ∧ queryParams { o with outFields := some "" }
        = queryParams { o with outFields := none }
      ∧ queryParams { o with resultRecordCount := some 0 }
        = queryParams { o with resultRecordCount := none })
    ∧ ((queryParams { o with whereClause := none }).whereClause = "1=1"
      ∧ (queryParams { o with outFields := none }).outFields = "*"
      ∧ (queryParams { o with resultRecordCount := none }).resultRecordCount
          = 1000)
    ∧ (queryLayer env ctx now serviceUrl layerId
          { o with whereClause := some "" } useCache
        = queryLayer env ctx now serviceUrl layerId
          { o with whereClause := none } useCache
      ∧ queryLayer env ctx now serviceUrl layerId
          { o with outFields := some "" } useCache
        = queryLayer env ctx now serviceUrl layerId
          { o with outFields := none } useCache
      ∧ queryLayer env ctx now serviceUrl layerId
          { o with resultRecordCount := some 0 } useCache
        = queryLayer env ctx now serviceUrl layerId
          { o with resultRecordCount := none } useCache) := by
  refine ⟨⟨rfl, rfl, rfl⟩, ⟨rfl, rfl, rfl⟩, ?_, ?_, ?_⟩ <;> rfl

/-- C3 (divergence evaluation): a fetch yielding HTTP 401 with a routine
non-empty body is accepted by `validateStatus: status < 500` and classified
on body content alone, so `checkServiceStatus` reports it accessible and not
auth-walled — the 401/403 arm of the catch handler is unreachable. -/
theorem claim_C3_http401_eval :
    (checkServiceStatus envAuth401Probe {} "https://svc").2
      = { accessible := true, requiresAuth := false, isEmpty := false,
          redirected := false, error := none, responseTime := some 0 } := rfl

/-- C1 (divergence evaluation): with the root catalog fetched and the
cancellation raised during the folder fan-out, the walk's promise resolves
as a partial success list (the folder placeholder probed by the catch
handler), not as the distinguished `Discovery cancelled` error. -/
theorem claim_C1_cancel_mid_fanout_eval :
    (getCatalog envCancelMidFanOut {} 0 "http://x" false).2
      = .ok [{ name := "A", type := "Folder", url := "http://x/A",
               folder := some "A", requiresAuth := false, isEmpty := false,
               error := some "canceled" }] := rfl

/-! ### Emission-shape lemmas for the discovery walk -/
theorem resolveService_snd (env : Env) (ctx : Ctx) (now : Nat)
    (baseUrl folder : String) (si : ArcGISServiceInfo) :
    ((resolveService env ctx now baseUrl folder si).2.name = si.name)
    ∧ ((resolveService env ctx now baseUrl folder si).2.folder
        = some (if folder == "" then "root" else folder))
    ∧ ((resolveService env ctx now baseUrl folder si).2.isEmpty = true →
        carriesLayerData (resolveService env ctx now baseUrl folder si).2
          = false) := by
  unfold resolveService
  dsimp only
  split
  · exact ⟨rfl, rfl, fun hh => Bool.noConfusion hh⟩
  · exact ⟨rfl, rfl, fun _ => rfl⟩
theorem resolveServices_mem (env : Env) (now : Nat) (baseUrl folder : String) :
    ∀ (l : List ArcGISServiceInfo) (ctx : Ctx) (s : ArcGISService),
      s ∈ (resolveServices env now baseUrl folder ctx l).2 →
      ∃ ctx2 si, si ∈ l ∧ s = (resolveService env ctx2 now baseUrl folder si).2 := by
  intro l
  induction l with
  | nil =>
    intro ctx s hs
    simp [resolveServices] at hs
  | cons si rest ih =>
    intro ctx s hs
    rw [resolveServices] at hs
    split at hs
    rename_i ctx1 svc h1
    split at hs
    rename_i ctx2 svcs h2
    dsimp only at hs
    rcases List.mem_cons.mp hs with rfl | htail
    · exact ⟨ctx, si, List.mem_cons_self _ _, (congrArg Prod.snd h1).symm⟩
    · obtain ⟨ctx3, si2, hmem, heq⟩ := ih ctx1 s (by rw [h2]; exact htail)
      exact ⟨ctx3, si2, List.mem_cons_of_mem _ hmem, heq⟩
theorem resolveServices_map_name (env : Env) (now : Nat)
    (baseUrl folder : String) :
    ∀ (l : List ArcGISServiceInfo) (ctx : Ctx),
      (resolveServices env now baseUrl folder ctx l).2.map ArcGISService.name
        = l.map ArcGISServiceInfo.name := by
  intro l
  induction l with
  | nil => intro ctx; simp [resolveServices]
  | cons si rest ih =>
    intro ctx
    rw [resolveServices]
    split
    rename_i ctx1 svc h1
    split
    rename_i ctx2 svcs h2
    dsimp only
    have hname : svc.name = si.name := by
      have := (resolveService_snd env ctx now baseUrl folder si).1
      rw [h1] at this
      exact this
    have htail : svcs.map ArcGISService.name
        = rest.map ArcGISServiceInfo.name := by
      have := ih ctx1
      rw [h2] at this
      exact this
    simp [hname, htail]

theorem fetchCatalogLevel_mem (env : Env) (ctx : Ctx) (now : Nat)
    (baseUrl folder : String) (s : ArcGISService)
    (hs : s ∈ (fetchCatalogLevel env ctx now baseUrl folder).2) :
    (∃ ctx2 si, s = (resolveService env ctx2 now baseUrl folder si).2)
    ∨ s = emptyFolderRecord baseUrl folder
    ∨ ∃ st : ServiceStatus, s = errorFolderRecord baseUrl folder st := by
  unfold fetchCatalogLevel at hs
  split at hs
  · rename_i c cd h
    split at hs
    · obtain ⟨ctx2, si, _, heq⟩ :=
        resolveServices_mem env now baseUrl folder _ c s hs
      exact Or.inl ⟨ctx2, si, heq⟩
    · split at hs
      · exact Or.inr (Or.inl (List.mem_singleton.mp hs))
      · simp at hs
  · rename_i c e h
    split at hs
    · split at hs
      rename_i c2 st hcs
      exact Or.inr (Or.inr ⟨st, List.mem_singleton.mp hs⟩)
    · simp at hs

theorem walkFolders_mem (env : Env) (now : Nat) (baseUrl : String) :
    ∀ (fs : List String) (ctx : Ctx) (s : ArcGISService),
      s ∈ (walkFolders env now baseUrl ctx fs).2 →
      ∃ ctx2 g, g ∈ fs ∧ s ∈ (fetchCatalogLevel env ctx2 now baseUrl g).2 := by
  intro fs
  induction fs with
  | nil =>
    intro ctx s hs
    simp [walkFolders] at hs
  | cons g rest ih =>
    intro ctx s hs
    rw [walkFolders] at hs
    split at hs
    rename_i ctx1 svcs h1
    split at hs
    rename_i ctx2 more h2
    dsimp only at hs
    rcases List.mem_append.mp hs with hleft | hright
    · exact ⟨ctx, g, List.mem_cons_self _ _, by rw [h1]; exact hleft⟩
    · obtain ⟨ctx3, g2, hmem, hin⟩ := ih ctx1 s (by rw [h2]; exact hright)
      exact ⟨ctx3, g2, List.mem_cons_of_mem _ hmem, hin⟩

theorem finishCatalog_snd (ctx : Ctx) (now : Nat) (baseUrl : String)
    (useCache : Bool) (services : List ArcGISService) :
    (finishCatalog ctx now baseUrl useCache services).2 = .ok services := by
  unfold finishCatalog
  split <;> rfl

theorem getCatalog_walk_mem (env : Env) (ctx : Ctx) (now : Nat)
    (baseUrl : String) (out : List ArcGISService) (s : ArcGISService)
    (hout : (getCatalog env ctx now baseUrl false).2 = .ok out)
    (hs : s ∈ out) :
    ∃ ctx2 g, s ∈ (fetchCatalogLevel env ctx2 now baseUrl g).2 := by
  have hwalk : (getCatalogWalk env ctx now baseUrl false).2 = .ok out := hout
  unfold getCatalogWalk at hwalk
  dsimp only at hwalk
  split at hwalk
  · rename_i ctx2 e heq
    cases e <;> exact Except.noConfusion hwalk
  · split at hwalk
    · rw [finishCatalog_snd] at hwalk
      have hout2 := Except.ok.inj hwalk
      rcases List.mem_append.mp (hout2 ▸ hs) with hleft | hright
      · exact ⟨logProgress ctx 0 1 "Fetching root catalog...", "", hleft⟩
      · obtain ⟨ctx3, g, _, hin⟩ := walkFolders_mem env now baseUrl _ _ s hright
        exact ⟨ctx3, g, hin⟩
    · rw [finishCatalog_snd] at hwalk
      have hout2 := Except.ok.inj hwalk
      exact ⟨logProgress ctx 0 1 "Fetching root catalog...", "", hout2 ▸ hs⟩
/-- C5 (amended part): every Service record emitted by a discovery walk that
is marked `isEmpty` carries no layer/table data (no counts, no descriptor
arrays) — a record is never simultaneously empty and carrying layer data. -/
theorem claim_C5_isEmpty_excludes_layer_data (env : Env) (ctx : Ctx)
    (now : Nat) (baseUrl : String) (out : List ArcGISService)
    (s : ArcGISService)
    (hout : (getCatalog env ctx now baseUrl false).2 = .ok out)
    (hs : s ∈ out) (hempty : s.isEmpty = true) :
    carriesLayerData s = false := by
  obtain ⟨ctx2, g, hmem⟩ := getCatalog_walk_mem env ctx now baseUrl out s hout hs
  rcases fetchCatalogLevel_mem env ctx2 now baseUrl g s hmem with
    ⟨ctx3, si, rfl⟩ | rfl | ⟨st, rfl⟩
  · exact (resolveService_snd env ctx3 now baseUrl g si).2.2 hempty
  · rfl
  · rfl

/-- C5 (refutation of the exactly-one claim): a service whose detail fetch
fails while the status probe finds it accessible is emitted with none of the
three "resolved" states — no layer/table data, not `isEmpty`, no error. -/
theorem claim_C5_counterexample :
    (getCatalog envDetailUnreachable {} 0 "b" false).2
      = .ok [{ name := "S", type := "MapServer", url := "b/S/MapServer",
               folder := some "root", requiresAuth := false, isEmpty := false }]
    ∧ resolvedStateCount
        { name := "S", type := "MapServer", url := "b/S/MapServer",
          folder := some "root", requiresAuth := false, isEmpty := false }
        = 0 := by
  exact ⟨rfl, rfl⟩

/-- C5 amended witness: the walk over `envFolderWalk` emits the empty-folder
placeholder for folder `A`, which is `isEmpty` and carries no layer data. -/
theorem claim_C5_amended_witness :
    (getCatalog envFolderWalk {} 0 "b" false).2
      = .ok [{ name := "R", type := "MapServer", url := "b/R/MapServer",
               folder := some "root", layerCount := some 1,
               tableCount := some 0, requiresAuth := false, isEmpty := false,
               layers := some [⟨0, "L", none⟩] },
             emptyFolderRecord "b" "A",
             { name := "S", type := "FeatureServer", url := "b/S/FeatureServer",
               folder := some "B", layerCount := some 1, tableCount := some 0,
               requiresAuth := false, isEmpty := false,
               layers := some [⟨0, "L", none⟩] }]
    ∧ (emptyFolderRecord "b" "A").isEmpty = true
    ∧ carriesLayerData (emptyFolderRecord "b" "A") = false := by
  refine ⟨rfl, rfl, ?_⟩
  exact claim_C5_isEmpty_excludes_layer_data envFolderWalk {} 0 "b" _ _ rfl
    (by decide) rfl
/-- C6: when a catalog listing names services, the level emits exactly one
record per discovered service, in order and never dropped (their names map
back to the listing); and any service whose detail fetch fails is populated
with the status prober's requiresAuth/isEmpty/error verdict for its service
URL. -/
theorem claim_C6_detail_failure_probed (env : Env) (ctx : Ctx) (now : Nat)
    (baseUrl folder : String) (cd : ArcGISCatalogResponse)
    (infos : List ArcGISServiceInfo)
    (h1 : env.catalog (if folder == "" then baseUrl
            else baseUrl ++ "/" ++ folder) = .ok cd)
    (h2 : cd.services = some infos)
    (h3 : infos ≠ []) :
    ((fetchCatalogLevel env ctx now baseUrl folder).2.map ArcGISService.name
        = infos.map ArcGISServiceInfo.name)
    ∧ (∀ si ∈ infos, ∀ (ctx2 : Ctx) (e : JsError),
        (getServiceDetails env ctx2 now
            (buildServiceUrl baseUrl si.name si.type) true).2 = .error e →
        ((resolveService env ctx2 now baseUrl folder si).2.requiresAuth
            = (checkServiceStatus env
                (getServiceDetails env ctx2 now
                  (buildServiceUrl baseUrl si.name si.type) true).1
                (buildServiceUrl baseUrl si.name si.type)).2.requiresAuth
          ∧ (resolveService env ctx2 now baseUrl folder si).2.isEmpty
            = (checkServiceStatus env
                (getServiceDetails env ctx2 now
                  (buildServiceUrl baseUrl si.name si.type) true).1
                (buildServiceUrl baseUrl si.name si.type)).2.isEmpty
          ∧ (resolveService env ctx2 now baseUrl folder si).2.error
            = (checkServiceStatus env
                (getServiceDetails env ctx2 now
                  (buildServiceUrl baseUrl si.name si.type) true).1
                (buildServiceUrl baseUrl si.name si.type)).2.error)) := by
  constructor
  · have hfr : fetchRaw env ctx baseUrl folder
        = (logReq ctx (if folder == "" then baseUrl
            else baseUrl ++ "/" ++ folder), .ok cd) := by
      unfold fetchRaw
      dsimp only
      rw [h1]
    unfold fetchCatalogLevel
    rw [hfr]
    dsimp only
    rw [h2]
    have hlen : (0 : Nat) < infos.length := List.length_pos.mpr h3
    rw [if_pos (by simpa using hlen)]
    exact resolveServices_map_name env now baseUrl folder infos _
  · intro si _ ctx2 e hfail
    unfold resolveService
    dsimp only
    split
    · rename_i ctx1 details heq
      rw [heq] at hfail
      exact Except.noConfusion hfail
    · rename_i ctx1 err heq
      rw [heq]
      exact ⟨rfl, rfl, rfl⟩

/-- C6 witness: over `envDetailUnreachable` the root listing names one
service, its detail fetch fails, and the emitted record carries the prober's
verdict. -/
theorem claim_C6_witness :
    (envDetailUnreachable.catalog (if ("" : String) == "" then "b"
        else "b" ++ "/" ++ "") = .ok { services := some [⟨"S", "MapServer"⟩] })
    ∧ ([(⟨"S", "MapServer"⟩ : ArcGISServiceInfo)] ≠ [])
    ∧ ((fetchCatalogLevel envDetailUnreachable {} 0 "b" "").2.map
        ArcGISService.name = ["S"])
    ∧ ((resolveService envDetailUnreachable {} 0 "b" "" ⟨"S", "MapServer"⟩).2.requiresAuth
        = (checkServiceStatus envDetailUnreachable
            (getServiceDetails envDetailUnreachable {} 0
              (buildServiceUrl "b" "S" "MapServer") true).1
            (buildServiceUrl "b" "S" "MapServer")).2.requiresAuth) := by
  have h := claim_C6_detail_failure_probed envDetailUnreachable {} 0 "b" ""
    { services := some [⟨"S", "MapServer"⟩] } [⟨"S", "MapServer"⟩]
    rfl rfl (by decide)
  refine ⟨rfl, by decide, h.1, ?_⟩
  exact (h.2 ⟨"S", "MapServer"⟩ (List.mem_singleton.mpr rfl) {}
    (.error "timeout of 10000ms exceeded") rfl).1
theorem fetchCatalogLevel_folder_label (env : Env) (ctx : Ctx) (now : Nat)
    (baseUrl g : String) (s : ArcGISService)
    (hs : s ∈ (fetchCatalogLevel env ctx now baseUrl g).2) :
    s.folder = some (if g == "" then "root" else g) := by
  unfold fetchCatalogLevel at hs
  split at hs
  · rename_i c cd h
    split at hs
    · obtain ⟨ctx2, si, _, heq⟩ := resolveServices_mem env now baseUrl g _ c s hs
      rw [heq]
      exact (resolveService_snd env ctx2 now baseUrl g si).2.1
    · split at hs
      · rename_i hg
        have hseq : s = emptyFolderRecord baseUrl g := List.mem_singleton.mp hs
        have hgne : (g == "") = false := by
          simpa using hg
        rw [hseq]
        simp [emptyFolderRecord, hgne]
      · simp at hs
  · rename_i c e h
    split at hs
    · rename_i hg
      split at hs
      rename_i c2 st hcs
      have hseq : s = errorFolderRecord baseUrl g st := List.mem_singleton.mp hs
      have hgne : (g == "") = false := by
        simpa using hg
      rw [hseq]
      simp [errorFolderRecord, hgne]
    · simp at hs

theorem fetchCatalogLevel_filter_ne (env : Env) (ctx : Ctx) (now : Nat)
    (baseUrl f g : String) (hne : g ≠ f) (hf : f ≠ "root") :
    (fetchCatalogLevel env ctx now baseUrl g).2.filter
      (fun s => s.folder == some f) = [] := by
  rw [List.filter_eq_nil_iff]
  intro s hs
  rw [fetchCatalogLevel_folder_label env ctx now baseUrl g s hs]
  simp only [beq_iff_eq, Option.some.injEq]
  split
  · exact fun hh => hf hh.symm
  · exact fun hh => hne hh

theorem fetchCatalogLevel_empty_target (env : Env) (ctx : Ctx) (now : Nat)
    (baseUrl f : String) (cdF : ArcGISCatalogResponse)
    (h4 : f ≠ "")
    (h6 : env.catalog (baseUrl ++ "/" ++ f) = .ok cdF)
    (h7 : cdF.services = some []) :
    (fetchCatalogLevel env ctx now baseUrl f).2
      = [emptyFolderRecord baseUrl f] := by
  have hfne : (f == "") = false := by
    simpa using h4
  have hfr : fetchRaw env ctx baseUrl f
      = (logReq ctx (baseUrl ++ "/" ++ f), .ok cdF) := by
    unfold fetchRaw
    dsimp only
    rw [show (if f == "" then baseUrl else baseUrl ++ "/" ++ f)
        = baseUrl ++ "/" ++ f by simp [hfne]]
    rw [h6]
  unfold fetchCatalogLevel
  rw [hfr]
  dsimp only
  rw [h7]
  rw [if_neg (by simp)]
  rw [if_pos (by simpa using h4)]

theorem walkFolders_filter_zero (env : Env) (now : Nat) (baseUrl f : String)
    (hf : f ≠ "root") :
    ∀ (fs : List String) (ctx : Ctx), fs.count f = 0 →
      (walkFolders env now baseUrl ctx fs).2.filter
        (fun s => s.folder == some f) = [] := by
  intro fs
  induction fs with
  | nil => intro ctx _; simp [walkFolders]
  | cons g rest ih =>
    intro ctx hcount
    have hg : g ≠ f := by
      intro hh
      subst hh
      rw [List.count_cons_self] at hcount
      omega
    have hrest : rest.count f = 0 := by
      rw [List.count_cons_of_ne (fun hh => hg hh.symm)] at hcount
      exact hcount
    rw [walkFolders]
    split
    rename_i ctx1 svcs h1
    split
    rename_i ctx2 more h2
    dsimp only
    rw [List.filter_append]
    have hsvcs : svcs.filter (fun s => s.folder == some f) = [] := by
      have := fetchCatalogLevel_filter_ne env ctx now baseUrl f g hg hf
      rw [h1] at this
      exact this
    have hmore : more.filter (fun s => s.folder == some f) = [] := by
      have := ih ctx1 hrest
      rw [h2] at this
      exact this
    rw [hsvcs, hmore]
    rfl

theorem walkFolders_filter_one (env : Env) (now : Nat) (baseUrl f : String)
    (cdF : ArcGISCatalogResponse)
    (h4 : f ≠ "") (h5 : f ≠ "root")
    (h6 : env.catalog (baseUrl ++ "/" ++ f) = .ok cdF)
    (h7 : cdF.services = some []) :
    ∀ (fs : List String) (ctx : Ctx), fs.count f = 1 →
      (walkFolders env now baseUrl ctx fs).2.filter
        (fun s => s.folder == some f) = [emptyFolderRecord baseUrl f] := by
  intro fs
  induction fs with
  | nil => intro ctx hcount; simp at hcount
  | cons g rest ih =>
    intro ctx hcount
    rw [walkFolders]
    split
    rename_i ctx1 svcs h1
    split
    rename_i ctx2 more h2
    dsimp only
    rw [List.filter_append]
    by_cases hg : g = f
    · subst hg
      have hrest : rest.count g = 0 := by
        rw [List.count_cons_self] at hcount
        omega
      have hsvcs : svcs.filter (fun s => s.folder == some g)
          = [emptyFolderRecord baseUrl g] := by
        have h3 := fetchCatalogLevel_empty_target env ctx now baseUrl g cdF h4 h6 h7
        rw [h1] at h3
        have h3x : svcs = [emptyFolderRecord baseUrl g] := h3
        rw [h3x]
        simp [emptyFolderRecord]
      have hmore : more.filter (fun s => s.folder == some g) = [] := by
        have := walkFolders_filter_zero env now baseUrl g h5 rest ctx1 hrest
        rw [h2] at this
        exact this
      rw [hsvcs, hmore]
      rfl
    · have hrest : rest.count f = 1 := by
        rw [List.count_cons_of_ne (fun hh => hg hh.symm)] at hcount
        exact hcount
      have hsvcs : svcs.filter (fun s => s.folder == some f) = [] := by
        have := fetchCatalogLevel_filter_ne env ctx now baseUrl f g hg h5
        rw [h1] at this
        exact this
      have hmore : more.filter (fun s => s.folder == some f)
          = [emptyFolderRecord baseUrl f] := by
        have := ih ctx1 hrest
        rw [h2] at this
        exact this
      rw [hsvcs, hmore]
      rfl
/-- C7: a folder whose listing returns an empty services array contributes
exactly one record to `getCatalog`'s output — the `Folder`-typed placeholder
with isEmpty=true and absent layer/table counts — and no records for
would-be children (the records labelled with that folder are exactly the one
placeholder). -/
theorem claim_C7_empty_folder (env : Env) (ctx : Ctx) (now : Nat)
    (baseUrl f : String) (fs : List String)
    (cdRoot cdF : ArcGISCatalogResponse)
    (h1 : env.catalog baseUrl = .ok cdRoot)
    (h2 : cdRoot.folders = some fs)
    (h3 : fs.count f = 1)
    (h4 : f ≠ "") (h5 : f ≠ "root")
    (h6 : env.catalog (baseUrl ++ "/" ++ f) = .ok cdF)
    (h7 : cdF.services = some []) :
    ∃ out, (getCatalog env ctx now baseUrl false).2 = .ok out
      ∧ out.filter (fun s => s.folder == some f)
          = [emptyFolderRecord baseUrl f]
      ∧ (emptyFolderRecord baseUrl f).type = "Folder"
      ∧ (emptyFolderRecord baseUrl f).isEmpty = true
      ∧ (emptyFolderRecord baseUrl f).layerCount = none
      ∧ (emptyFolderRecord baseUrl f).tableCount = none := by
  have hroot : ∀ c : Ctx, fetchRaw env c baseUrl ""
      = (logReq c baseUrl, .ok cdRoot) := by
    intro c
    unfold fetchRaw
    dsimp only
    rw [show (if ("" : String) == "" then baseUrl
        else baseUrl ++ "/" ++ "") = baseUrl from rfl]
    rw [h1]
  have hmem : f ∈ fs := by
    by_contra hno
    rw [List.count_eq_zero_of_not_mem hno] at h3
    exact absurd h3 (by omega)
  have hlen : fs.length > 0 :=
    List.length_pos.mpr (List.ne_nil_of_mem hmem)
  have hgc : (getCatalog env ctx now baseUrl false)
      = getCatalogWalk env ctx now baseUrl false := rfl
  rw [hgc]
  unfold getCatalogWalk
  dsimp only
  rw [hroot]
  dsimp only
  rw [h2]
  dsimp only [Option.getD]
  rw [if_pos hlen]
  refine ⟨_, finishCatalog_snd _ _ _ _ _, ?_, rfl, rfl, rfl, rfl⟩
  rw [List.filter_append]
  rw [fetchCatalogLevel_filter_ne env _ now baseUrl f ""
    (fun hh => h4 hh.symm) h5]
  rw [walkFolders_filter_one env now baseUrl f cdF h4 h5 h6 h7 fs _ h3]
  rfl

/-- C7 witness: over `envFolderWalk`, folder `A` (listed once, empty) yields
exactly its placeholder record and nothing else labelled `A`. -/
theorem claim_C7_witness :
    ((["A", "B"] : List String).count "A" = 1)
    ∧ ∃ out, (getCatalog envFolderWalk {} 0 "b" false).2 = .ok out
        ∧ out.filter (fun s => s.folder == some "A")
            = [emptyFolderRecord "b" "A"]
        ∧ (emptyFolderRecord "b" "A").type = "Folder"
        ∧ (emptyFolderRecord "b" "A").isEmpty = true
        ∧ (emptyFolderRecord "b" "A").layerCount = none
        ∧ (emptyFolderRecord "b" "A").tableCount = none := by
  refine ⟨by decide, ?_⟩
  exact claim_C7_empty_folder envFolderWalk {} 0 "b" "A" ["A", "B"]
    { services := some [⟨"R", "MapServer"⟩], folders := some ["A", "B"] }
    { services := some [] } rfl rfl (by decide) (by decide) (by decide) rfl rfl
/-! ### Progress-log lemmas -/

theorem fetchRaw_prog (env : Env) (ctx : Ctx) (baseUrl folder : String) :
    (fetchRaw env ctx baseUrl folder).1.prog = ctx.prog := by
  unfold fetchRaw
  dsimp only
  split <;> rfl

theorem checkServiceStatus_fst (env : Env) (ctx : Ctx) (url : String) :
    (checkServiceStatus env ctx url).1 = logReq ctx url := by
  unfold checkServiceStatus
  dsimp only
  split
  · split <;> rfl
  · rfl

theorem getServiceDetailsFetch_prog (env : Env) (ctx : Ctx) (now : Nat)
    (serviceUrl : String) (useCache : Bool) :
    (getServiceDetailsFetch env ctx now serviceUrl useCache).1.prog
      = ctx.prog := by
  unfold getServiceDetailsFetch
  dsimp only
  split
  · rfl
  · split <;> rfl

theorem getServiceDetails_prog (env : Env) (ctx : Ctx) (now : Nat)
    (serviceUrl : String) (useCache : Bool) :
    (getServiceDetails env ctx now serviceUrl useCache).1.prog = ctx.prog := by
  unfold getServiceDetails
  dsimp only
  split
  · split
    · rfl
    · rw [getServiceDetailsFetch_prog]
  · rw [getServiceDetailsFetch_prog]

theorem resolveService_prog (env : Env) (ctx : Ctx) (now : Nat)
    (baseUrl folder : String) (si : ArcGISServiceInfo) :
    (resolveService env ctx now baseUrl folder si).1.prog = ctx.prog := by
  unfold resolveService
  dsimp only
  split
  · rename_i c d heq
    have hp := getServiceDetails_prog env ctx now
      (buildServiceUrl baseUrl si.name si.type) true
    rw [heq] at hp
    exact hp
  · rename_i c e heq
    have hp := getServiceDetails_prog env ctx now
      (buildServiceUrl baseUrl si.name si.type) true
    rw [heq] at hp
    rw [checkServiceStatus_fst]
    exact hp

theorem resolveServices_prog (env : Env) (now : Nat) (baseUrl folder : String) :
    ∀ (l : List ArcGISServiceInfo) (ctx : Ctx),
      (resolveServices env now baseUrl folder ctx l).1.prog = ctx.prog := by
  intro l
  induction l with
  | nil => intro ctx; rfl
  | cons si rest ih =>
    intro ctx
    rw [resolveServices]
    split
    rename_i ctx1 svc h1
    split
    rename_i ctx2 svcs h2
    dsimp only
    have hp1 := resolveService_prog env ctx now baseUrl folder si
    rw [h1] at hp1
    have hp2 := ih ctx1
    rw [h2] at hp2
    rw [hp2, hp1]

theorem fetchCatalogLevel_prog (env : Env) (ctx : Ctx) (now : Nat)
    (baseUrl folder : String) :
    (fetchCatalogLevel env ctx now baseUrl folder).1.prog = ctx.prog := by
  unfold fetchCatalogLevel
  split
  · rename_i c cd heq
    have hfr := fetchRaw_prog env ctx baseUrl folder
    rw [heq] at hfr
    split
    · rw [resolveServices_prog]
      exact hfr
    · split <;> exact hfr
  · rename_i c e heq
    have hfr := fetchRaw_prog env ctx baseUrl folder
    rw [heq] at hfr
    split
    · split
      rename_i c2 st hcs
      have hp := checkServiceStatus_fst env c (baseUrl ++ "/" ++ folder)
      rw [hcs] at hp
      have hc2 : c2 = logReq c (baseUrl ++ "/" ++ folder) := hp
      rw [hc2]
      exact hfr
    · exact hfr

theorem walkFolders_prog (env : Env) (now : Nat) (baseUrl : String) :
    ∀ (fs : List String) (ctx : Ctx),
      (walkFolders env now baseUrl ctx fs).1.prog = ctx.prog := by
  intro fs
  induction fs with
  | nil => intro ctx; rfl
  | cons g rest ih =>
    intro ctx
    rw [walkFolders]
    split
    rename_i ctx1 svcs h1
    split
    rename_i ctx2 more h2
    dsimp only
    have hp1 := fetchCatalogLevel_prog env ctx now baseUrl g
    rw [h1] at hp1
    have hp2 := ih ctx1
    rw [h2] at hp2
    rw [hp2, hp1]

theorem finishCatalog_prog (ctx : Ctx) (now : Nat) (baseUrl : String)
    (useCache : Bool) (services : List ArcGISService) :
    (finishCatalog ctx now baseUrl useCache services).1.prog
      = ctx.prog ++ [⟨1, 1, "Complete"⟩] := by
  unfold finishCatalog
  split <;> rfl

theorem getCatalogWalk_prog (env : Env) (ctx : Ctx) (now : Nat)
    (baseUrl : String) (useCache : Bool) :
    ∃ tail, (getCatalogWalk env ctx now baseUrl useCache).1.prog
        = ctx.prog ++ tail
      ∧ progressMonotone tail := by
  unfold getCatalogWalk
  dsimp only
  have hroot : (fetchCatalogLevel env
      (logProgress ctx 0 1 "Fetching root catalog...") now baseUrl "").1.prog
      = ctx.prog ++ [⟨0, 1, "Fetching root catalog..."⟩] := by
    rw [fetchCatalogLevel_prog]
    rfl
  split
  · rename_i c2 e heq
    have hfr := fetchRaw_prog env
      (fetchCatalogLevel env (logProgress ctx 0 1 "Fetching root catalog...")
        now baseUrl "").1 baseUrl ""
    rw [heq] at hfr
    cases e <;>
      exact ⟨[⟨0, 1, "Fetching root catalog..."⟩], by rw [hfr, hroot],
        by simp [progressMonotone, currentsNonDecreasing]⟩
  · rename_i c2 cr heq
    have hfr := fetchRaw_prog env
      (fetchCatalogLevel env (logProgress ctx 0 1 "Fetching root catalog...")
        now baseUrl "").1 baseUrl ""
    rw [heq] at hfr
    split
    · refine ⟨[⟨0, 1, "Fetching root catalog..."⟩,
        ⟨1, (cr.folders.getD []).length + 1,
          "Processing " ++ toString (cr.folders.getD []).length
            ++ " folders..."⟩,
        ⟨1, 1, "Complete"⟩], ?_, ?_⟩
      · rw [finishCatalog_prog, walkFolders_prog]
        dsimp only [logProgress]
        rw [hfr, hroot]
        simp
      · simp [progressMonotone, currentsNonDecreasing]
    · refine ⟨[⟨0, 1, "Fetching root catalog..."⟩, ⟨1, 1, "Complete"⟩], ?_, ?_⟩
      · rw [finishCatalog_prog]
        rw [hfr, hroot]
        simp
      · simp [progressMonotone, currentsNonDecreasing]

/-- C8 (amended part): within a single `getCatalog` walk started with a
fresh progress log, the `current` components of successive progress-callback
invocations are non-decreasing. -/
theorem claim_C8_getCatalog_progress_monotone (env : Env) (ctx : Ctx)
    (now : Nat) (baseUrl : String) (useCache : Bool)
    (h : ctx.prog = []) :
    progressMonotone ((getCatalog env ctx now baseUrl useCache).1.prog) := by
  unfold getCatalog
  dsimp only
  split
  · split
    · show progressMonotone ctx.prog
      rw [h]
      simp [progressMonotone, currentsNonDecreasing]
    · obtain ⟨tail, hp, hm⟩ := getCatalogWalk_prog env
        { ctx with store :=
          (CacheService.get ctx.store now
            (CacheService.KEYS.SERVICE_CATALOG baseUrl)).2 }
        now baseUrl useCache
      rw [hp]
      dsimp only
      rw [h]
      simpa using hm
  · obtain ⟨tail, hp, hm⟩ := getCatalogWalk_prog env ctx now baseUrl useCache
    rw [hp, h]
    simpa using hm

/-- C8 (refutation for resource-mode walks): a concrete `getResourceCatalog`
run issues progress calls with currents 0,0,1,0,1,1 — the count drops back
to 0 when the resource-details phase starts, so the currents of a single
resource-mode walk are not non-decreasing. -/
theorem claim_C8_counterexample :
    ((getResourceCatalog envResourceWalk {} 0 "b" false).1.prog.map
        ProgressCall.current = [0, 0, 1, 0, 1, 1])
    ∧ currentsNonDecreasing
        ((getResourceCatalog envResourceWalk {} 0 "b" false).1.prog)
      = false := by
  exact ⟨rfl, by decide⟩

/-- C8 amended witness: a concrete `getCatalog` walk, started with an empty
progress log, has non-decreasing currents. -/
theorem claim_C8_amended_witness :
    (({} : Ctx).prog = [])
    ∧ progressMonotone ((getCatalog envPlainRoot {} 0 "http://x" true).1.prog) := by
  exact ⟨rfl,
    claim_C8_getCatalog_progress_monotone envPlainRoot {} 0 "http://x" true rfl⟩
/-! ### Batch-loop lemmas (resource-mode walk) -/

theorem getLayerDetailsFetch_prog (env : Env) (ctx : Ctx) (now : Nat)
    (serviceUrl : String) (layerId : Nat) (useCache : Bool) :
    (getLayerDetailsFetch env ctx now serviceUrl layerId useCache).1.prog
      = ctx.prog := by
  unfold getLayerDetailsFetch
  dsimp only
  split
  · rfl
  · split <;> rfl

theorem getLayerDetails_prog (env : Env) (ctx : Ctx) (now : Nat)
    (serviceUrl : String) (layerId : Nat) (useCache : Bool) :
    (getLayerDetails env ctx now serviceUrl layerId useCache).1.prog
      = ctx.prog := by
  unfold getLayerDetails
  dsimp only
  split
  · split
    · rfl
    · rw [getLayerDetailsFetch_prog]
  · rw [getLayerDetailsFetch_prog]

theorem processLayers_prog (env : Env) (now : Nat) (useCache : Bool)
    (service : ArcGISService) :
    ∀ (l : List ArcGISLayer) (ctx : Ctx),
      (processLayers env now useCache service ctx l).1.prog = ctx.prog := by
  intro l
  induction l with
  | nil => intro ctx; rfl
  | cons layer rest ih =>
    intro ctx
    rw [processLayers]
    dsimp only
    cases h2 : processLayers env now useCache service
        (getLayerDetails env ctx now service.url layer.id useCache).1 rest with
    | mk ctx2 more =>
      have hp1 := getLayerDetails_prog env ctx now service.url layer.id useCache
      have hp2 := ih (getLayerDetails env ctx now service.url layer.id useCache).1
      rw [h2] at hp2
      exact hp2.trans hp1

theorem processTables_prog (env : Env) (now : Nat) (useCache : Bool)
    (service : ArcGISService) :
    ∀ (l : List ArcGISTable) (ctx : Ctx),
      (processTables env now useCache service ctx l).1.prog = ctx.prog := by
  intro l
  induction l with
  | nil => intro ctx; rfl
  | cons table rest ih =>
    intro ctx
    rw [processTables]
    dsimp only
    cases h2 : processTables env now useCache service
        (getLayerDetails env ctx now service.url table.id useCache).1 rest with
    | mk ctx2 more =>
      have hp1 := getLayerDetails_prog env ctx now service.url table.id useCache
      have hp2 := ih (getLayerDetails env ctx now service.url table.id useCache).1
      rw [h2] at hp2
      exact hp2.trans hp1

theorem processService_prog (env : Env) (ctx : Ctx) (now : Nat)
    (useCache : Bool) (service : ArcGISService) :
    (processService env ctx now useCache service).1.prog = ctx.prog := by
  unfold processService
  dsimp only
  rw [processTables_prog, processLayers_prog]

theorem processBatchServices_prog (env : Env) (now : Nat) (useCache : Bool) :
    ∀ (l : List ArcGISService) (ctx : Ctx),
      (processBatchServices env now useCache ctx l).1.prog = ctx.prog := by
  intro l
  induction l with
  | nil => intro ctx; rfl
  | cons s rest ih =>
    intro ctx
    rw [processBatchServices]
    split
    rename_i ctx1 rs h1
    split
    rename_i ctx2 more h2
    dsimp only
    have hp1 := processService_prog env ctx now useCache s
    rw [h1] at hp1
    have hp2 := ih ctx1
    rw [h2] at hp2
    rw [hp2, hp1]

theorem resourceBatchSteps_prog (env : Env) (now : Nat) (useCache : Bool)
    (eligible : List ArcGISService) :
    ∀ (fuel i : Nat) (ctx : Ctx),
      (resourceBatchSteps env now useCache eligible fuel i ctx).1.prog
        = ctx.prog ++ batchProgressTail eligible.length fuel i := by
  intro fuel
  induction fuel with
  | zero => intro i ctx; simp [resourceBatchSteps, batchProgressTail]
  | succ k ih =>
    intro i ctx
    rw [resourceBatchSteps, batchProgressTail]
    by_cases hi : i < eligible.length
    · rw [if_pos hi, if_pos hi]
      dsimp only
      rw [ih]
      dsimp only [logProgress]
      rw [processBatchServices_prog]
      simp
    · rw [if_neg hi, if_neg hi]
      simp

set_option maxRecDepth 10000 in
/-- C9: entered at index 0 over exactly 25 eligible services with batch size
10, the batch loop of `getResourceCatalog` reports batch completion exactly
3 times, with cumulative currents 10, 20, 25 in that order; and the concrete
25-service resource-mode walk `envTwentyFive` issues exactly those three
`Processed ...` callbacks end to end. -/
theorem claim_C9_batch_progress (env : Env) (now : Nat) (useCache : Bool)
    (eligible : List ArcGISService) (ctx : Ctx)
    (h25 : eligible.length = 25) :
    ((resourceBatchLoop env now useCache eligible 0 ctx).1.prog
      = ctx.prog
        ++ [⟨10, 25, "Processed 10 of 25 services..."⟩,
            ⟨20, 25, "Processed 20 of 25 services..."⟩,
            ⟨25, 25, "Processed 25 of 25 services..."⟩])
    ∧ ((getResourceCatalog envTwentyFive {} 0 "b" false).1.prog.filter
          (fun p => p.message.data.take 10 == "Processed ".data)).map
        ProgressCall.current = [10, 20, 25] := by
  constructor
  · unfold resourceBatchLoop
    rw [resourceBatchSteps_prog, h25]
    rw [show batchProgressTail 25 25 0
        = [⟨10, 25, "Processed 10 of 25 services..."⟩,
           ⟨20, 25, "Processed 20 of 25 services..."⟩,
           ⟨25, 25, "Processed 25 of 25 services..."⟩] from by decide]
  · rfl

/-- C9 witness: the loop-level law applied to a concrete list of 25 eligible
services. -/
theorem claim_C9_witness :
    ((List.replicate 25 svcWithLayer).length = 25)
    ∧ (resourceBatchLoop envResourceWalk 0 false
          (List.replicate 25 svcWithLayer) 0 {}).1.prog
        = [⟨10, 25, "Processed 10 of 25 services..."⟩,
           ⟨20, 25, "Processed 20 of 25 services..."⟩,
           ⟨25, 25, "Processed 25 of 25 services..."⟩] := by
  refine ⟨by simp, ?_⟩
  have h := (claim_C9_batch_progress envResourceWalk 0 false
    (List.replicate 25 svcWithLayer) {} (by simp)).1
  rw [show ({} : Ctx).prog = [] from rfl] at h
  simpa using h
/-! ### Cache-coherence lemmas for the walk -/

theorem cacheGet_hit {α : Type} (store : List (String × CacheEntry α))
    (now : Nat) (key : String) (x : α)
    (h : (CacheService.get store now key).1 = some x) :
    ∃ e, storeLookup store key = some e ∧ e.data = x
      ∧ (CacheService.get store now key).2 = store := by
  unfold CacheService.get at h ⊢
  cases hl : storeLookup store key with
  | none =>
    rw [hl] at h
    exact absurd h (by simp)
  | some e =>
    rw [hl] at h
    dsimp only at h ⊢
    by_cases hexp : now - e.timestamp > e.ttl
    · rw [if_pos hexp] at h
      exact absurd h (by simp)
    · rw [if_neg hexp] at h
      rw [if_neg hexp]
      exact ⟨e, rfl, Option.some.inj h, rfl⟩

theorem finishCatalog_store (ctx : Ctx) (now : Nat) (baseUrl : String)
    (services : List ArcGISService) :
    (finishCatalog ctx now baseUrl true services).1.store
      = CacheService.set (logProgress ctx 1 1 "Complete").store now
          (CacheService.KEYS.SERVICE_CATALOG baseUrl) (CVal.services services)
          CacheService.TTL.MEDIUM := rfl

theorem getCatalogWalk_store (env : Env) (ctx : Ctx) (now : Nat)
    (baseUrl : String) (s : List ArcGISService)
    (h : (getCatalogWalk env ctx now baseUrl true).2 = .ok s) :
    storeLookup (getCatalogWalk env ctx now baseUrl true).1.store
        (CacheService.KEYS.SERVICE_CATALOG baseUrl)
      = some ⟨CVal.services s, now, CacheService.TTL.MEDIUM⟩ := by
  unfold getCatalogWalk at h ⊢
  dsimp only at h ⊢
  split at h
  · rename_i c2 e heq
    cases e <;> exact Except.noConfusion h
  · rename_i c2 cr heq
    split at h
    · rename_i hlen
      rw [if_pos hlen]
      rw [finishCatalog_snd] at h
      have hx := Except.ok.inj h
      rw [finishCatalog_store, hx, storeLookup_set]
    · rename_i hlen
      rw [if_neg hlen]
      rw [finishCatalog_snd] at h
      have hx := Except.ok.inj h
      rw [finishCatalog_store, hx, storeLookup_set]

theorem getCatalog_true_eq (env : Env) (ctx : Ctx) (now : Nat)
    (baseUrl : String) :
    getCatalog env ctx now baseUrl true
      = (match (CacheService.get ctx.store now
            (CacheService.KEYS.SERVICE_CATALOG baseUrl)).1.filter
            CVal.jsTruthy with
         | some v =>
            ({ ctx with store := (CacheService.get ctx.store now
                (CacheService.KEYS.SERVICE_CATALOG baseUrl)).2 },
              .ok v.asServices)
         | none =>
            getCatalogWalk env
              { ctx with store := (CacheService.get ctx.store now
                  (CacheService.KEYS.SERVICE_CATALOG baseUrl)).2 }
              now baseUrl true) := rfl

theorem getCatalog_cached_state (env : Env) (ctx : Ctx) (now1 : Nat)
    (baseUrl : String) (s : List ArcGISService)
    (h1 : (getCatalog env ctx now1 baseUrl true).2 = .ok s) :
    ∃ e : CacheEntry CVal,
      storeLookup (getCatalog env ctx now1 baseUrl true).1.store
          (CacheService.KEYS.SERVICE_CATALOG baseUrl) = some e
      ∧ e.data.jsTruthy = true ∧ e.data.asServices = s := by
  rw [getCatalog_true_eq] at h1 ⊢
  revert h1
  cases hfil : (CacheService.get ctx.store now1
      (CacheService.KEYS.SERVICE_CATALOG baseUrl)).1.filter CVal.jsTruthy with
  | some v =>
    intro h1
    dsimp only at h1 ⊢
    have hs : v.asServices = s := Except.ok.inj h1
    have hfacts : (CacheService.get ctx.store now1
        (CacheService.KEYS.SERVICE_CATALOG baseUrl)).1 = some v
        ∧ v.jsTruthy = true := by
      cases hget : (CacheService.get ctx.store now1
          (CacheService.KEYS.SERVICE_CATALOG baseUrl)).1 with
      | none =>
        rw [hget] at hfil
        exact absurd hfil (by simp [Option.filter])
      | some w =>
        rw [hget] at hfil
        by_cases htr : w.jsTruthy
        · have hwv : w = v := by
            simpa [Option.filter, htr] using hfil
          exact ⟨by rw [hwv], by rw [← hwv]; exact htr⟩
        · exact absurd hfil (by simp [Option.filter, htr])
    obtain ⟨e, he, hed, hst⟩ := cacheGet_hit ctx.store now1
      (CacheService.KEYS.SERVICE_CATALOG baseUrl) v hfacts.1
    rw [hst]
    exact ⟨e, he, by rw [hed]; exact hfacts.2, by rw [hed]; exact hs⟩
  | none =>
    intro h1
    dsimp only at h1 ⊢
    exact ⟨⟨CVal.services s, now1, CacheService.TTL.MEDIUM⟩,
      getCatalogWalk_store env _ now1 baseUrl s h1, rfl, rfl⟩

/-- C2 (amended part): after a first `getCatalog(url, useCache=true)` call
returning successfully, a second call with no intervening cache clear and no
TTL expiry is served entirely from the cache: it issues no network request
at all and returns the same list. -/
theorem claim_C2_second_call_cached (env : Env) (ctx : Ctx) (now1 now2 : Nat)
    (baseUrl : String) (s : List ArcGISService)
    (h1 : (getCatalog env ctx now1 baseUrl true).2 = .ok s)
    (h2 : ∀ e, storeLookup (getCatalog env ctx now1 baseUrl true).1.store
            (CacheService.KEYS.SERVICE_CATALOG baseUrl) = some e →
            ¬ now2 - e.timestamp > e.ttl) :
    ((getCatalog env (getCatalog env ctx now1 baseUrl true).1 now2 baseUrl
        true).2 = .ok s
    ∧ (getCatalog env (getCatalog env ctx now1 baseUrl true).1 now2 baseUrl
        true).1.reqs = (getCatalog env ctx now1 baseUrl true).1.reqs) := by
  obtain ⟨e, he, htr, hsv⟩ := getCatalog_cached_state env ctx now1 baseUrl s h1
  have hexp := h2 e he
  generalize hP : (getCatalog env ctx now1 baseUrl true).1 = P at he ⊢
  have hget : CacheService.get P.store now2
      (CacheService.KEYS.SERVICE_CATALOG baseUrl) = (some e.data, P.store) := by
    unfold CacheService.get
    rw [he]
    dsimp only
    rw [if_neg hexp]
  rw [getCatalog_true_eq, hget]
  dsimp only
  rw [show (some e.data).filter CVal.jsTruthy = some e.data by
    simp [Option.filter, htr]]
  dsimp only
  exact ⟨by rw [hsv], rfl⟩

/-- C2 (refutation of the at-most-one-fetch claim): each cache-missing walk
fetches the root listing twice (once inside the root `fetchCatalogLevel`,
once to read the folder list), so two back-to-back cached calls issue two
root-catalog fetches in total, not at most one — both by the first call. -/
theorem claim_C2_counterexample :
    (getCatalog envPlainRoot (getCatalog envPlainRoot {} 0 "http://x" true).1
        0 "http://x" true).1.reqs.count "http://x" = 2 := rfl

/-- C2 amended witness: over `envPlainRoot` the first call returns `ok []`
and the second call is served from cache with no new requests. -/
theorem claim_C2_amended_witness :
    ((getCatalog envPlainRoot {} 0 "http://x" true).2 = .ok [])
    ∧ ((getCatalog envPlainRoot (getCatalog envPlainRoot {} 0 "http://x"
          true).1 0 "http://x" true).2 = .ok []
      ∧ (getCatalog envPlainRoot (getCatalog envPlainRoot {} 0 "http://x"
          true).1 0 "http://x" true).1.reqs
        = (getCatalog envPlainRoot {} 0 "http://x" true).1.reqs) := by
  refine ⟨rfl, claim_C2_second_call_cached envPlainRoot {} 0 0 "http://x" []
    rfl ?_⟩
  intro e he
  rw [show storeLookup (getCatalog envPlainRoot {} 0 "http://x" true).1.store
      (CacheService.KEYS.SERVICE_CATALOG "http://x")
      = some ⟨CVal.services [], 0, CacheService.TTL.MEDIUM⟩ from rfl] at he
  injection he with he2
  rw [← he2]
  decide
